import Mathlib

/-!
Shallow embedding of the payroll application in `src/run.py` (a small Flask
app backed by a sqlite table and pandas).  The persisted `staff` table is a
list of records plus the sqlite `AUTOINCREMENT` counter; Python floats on
monetary columns are modelled as exact rationals (the formulas use the exact
constants 0.10 and 0.08 and the spec fixes "no rounding applied
mid-calculation").
-/

/-- One row of the `staff` table created by `init_db` (src/run.py lines
22-31): id INTEGER PRIMARY KEY AUTOINCREMENT, name, role, four REAL
compensation columns, created_at timestamp. -/
structure StaffRecord where
  id : Nat
  name : String
  role : String
  basic : ℚ
  housing : ℚ
  transport : ℚ
  feeding : ℚ
  created_at : Nat
deriving Repr, DecidableEq

/-- One row of the DataFrame produced by `compute_payroll`: the staff columns
plus the derived columns added on lines 42-45. -/
structure PayrollLine where
  id : Nat
  name : String
  role : String
  basic : ℚ
  housing : ℚ
  transport : ℚ
  feeding : ℚ
  created_at : Nat
  gross : ℚ
  tax : ℚ
  pension : ℚ
  net : ℚ
deriving Repr, DecidableEq

/-- The sqlite database: the `staff` rows in insertion (rowid) order — a
plain `SELECT * FROM staff` scans them in that order — together with the
AUTOINCREMENT counter (the next id to hand out). -/
structure Store where
  rows : List StaffRecord
  nextId : Nat
deriving Repr, DecidableEq

/-- Model of `init_db` (src/run.py lines 19-32): a fresh database has no rows and
sqlite AUTOINCREMENT starts at 1. -/
def init_db : Store := ⟨[], 1⟩

/-- The store invariant maintained by AUTOINCREMENT: every id already handed
out is smaller than the counter. -/
def Store.WF (st : Store) : Prop := ∀ r ∈ st.rows, r.id < st.nextId

/-- Numeric value of a string of decimal digits, most significant first. -/
def digitsVal (l : List Char) : ℕ :=
  l.foldl (fun a c => 10 * a + (c.toNat - 48)) 0

/-- Value of an unsigned decimal literal as accepted by Python `float`
("12", "3.5", ".5", "2."); `none` when the text is not such a literal. -/
def parseUnsigned (l : List Char) : Option ℚ :=
  let intPart := l.takeWhile Char.isDigit
  let rest := l.dropWhile Char.isDigit
  match rest with
  | [] => if intPart.isEmpty then none else some (digitsVal intPart : ℚ)
  | c :: frac =>
    if c = '.' && frac.all Char.isDigit && !(intPart.isEmpty && frac.isEmpty) then
      some ((digitsVal intPart : ℚ) + (digitsVal frac : ℚ) / (10 : ℚ) ^ frac.length)
    else none

/-- Python `str.strip()`: remove whitespace from both ends.  (Implemented on
the character list so that it reduces in the kernel; `String.trim` does
not.) -/
def strip (s : String) : String :=
  ⟨((s.data.dropWhile Char.isWhitespace).reverse.dropWhile Char.isWhitespace).reverse⟩

/-- Model of Python `float(s)` as used on the form fields (lines 59-62):
surrounding whitespace is ignored, an optional sign is followed by a plain
decimal literal.  `none` models the `ValueError` raised by CPython.  The
exponent and inf/nan forms CPython also accepts are irrelevant to every
claim and are omitted. -/
def parseFloat (s : String) : Option ℚ :=
  match (strip s).toList with
  | [] => none
  | c :: rest =>
    if c = '-' then (parseUnsigned rest).map Neg.neg
    else if c = '+' then parseUnsigned rest
    else parseUnsigned (c :: rest)

/-- Lines 42-45 of `compute_payroll`: the derived columns for one row.
`net` is written exactly as in the source: `gross - (tax + pension)`. -/
def toLine (r : StaffRecord) : PayrollLine :=
  let gross := r.basic + r.housing + r.transport + r.feeding
  let tax := gross * 0.10
  let pension := gross * 0.08
  let net := gross - (tax + pension)
  { id := r.id, name := r.name, role := r.role, basic := r.basic,
    housing := r.housing, transport := r.transport, feeding := r.feeding,
    created_at := r.created_at, gross := gross, tax := tax,
    pension := pension, net := net }

/-- The comparison realised by `df.sort_values("net", ascending=False)`:
row `a` may precede row `b` when `b.net ≤ a.net`. -/
def netDescLE (a b : PayrollLine) : Bool := decide (b.net ≤ a.net)

/-- Model of `compute_payroll` (src/run.py lines 35-47): read every staff
row, return the empty frame unchanged when there are none (lines 39-40),
otherwise add the derived columns and sort by `net` descending.  The model
realises `df.sort_values("net", ascending=False)` with `List.mergeSort`,
one concrete sort by descending `net`.  pandas' default `kind='quicksort'`
leaves the relative order of rows with equal `net` unspecified (numpy's
introsort is not stable), so the tie order this model happens to pick is
not a guarantee of the program, and no theorem below depends on it: the
facts proved about `compute_payroll` (empty-store behaviour, membership as
a permutation of the derived rows, length, purity, and agreement of the
export with the same function) hold for any sort by descending `net`. -/
def compute_payroll (st : Store) : List PayrollLine :=
  if st.rows = [] then []
  else (st.rows.map toLine).mergeSort netDescLE

/-- Viewing `compute_payroll` as a transformer of the database state: its only SQL
is `SELECT * FROM staff` (line 37), so it returns the store unchanged next
to the computed frame. -/
def compute_payroll_op (st : Store) : Store × List PayrollLine :=
  (st, compute_payroll st)

/-- One POST submission: the six fields `index` reads from `request.form`
(lines 57-62); `none` models a key missing from the request. -/
structure Form where
  name : Option String
  role : Option String
  basic : Option String
  housing : Option String
  transport : Option String
  feeding : Option String
deriving Repr, DecidableEq

/-- The exceptions the `data = {...}` literal can raise: a missing form key
raises `BadRequestKeyError`; a `float()` on a bad string raises
`ValueError`. -/
inductive FormError where
  | keyError
  | valueError
deriving Repr, DecidableEq

/-- Outcome of the POST branch of `index` (lines 54-74): a successful insert
redirects; a `ValueError` is caught on line 73 and surfaced as the form
error message; a `BadRequestKeyError` is not a `ValueError` and escapes as
a 400 response. -/
inductive PostOutcome where
  | redirect
  | formError (msg : String)
  | badRequest
deriving Repr, DecidableEq

/-- Model of `request.form[k].strip()` for the text fields (lines 57-58). -/
def getText (v : Option String) : Except FormError String :=
  match v with
  | none => .error .keyError
  | some s => .ok (strip s)

/-- Model of `float(request.form[k])` for the monetary fields (lines 59-62). -/
def getMoney (v : Option String) : Except FormError ℚ :=
  match v with
  | none => .error .keyError
  | some s =>
    match parseFloat s with
    | none => .error .valueError
    | some q => .ok q

/-- The `data = {...}` dict literal (lines 56-63), evaluated left to right:
each field access may raise `BadRequestKeyError` and each `float()` may
raise `ValueError`; the first exception aborts the whole literal. -/
def form_data (f : Form) : Except FormError (String × String × ℚ × ℚ × ℚ × ℚ) := do
  let name ← getText f.name
  let role ← getText f.role
  let basic ← getMoney f.basic
  let housing ← getMoney f.housing
  let transport ← getMoney f.transport
  let feeding ← getMoney f.feeding
  return (name, role, basic, housing, transport, feeding)

/-- The POST branch of `index` (lines 54-74): build `data`; on success insert
one row — sqlite assigns the next AUTOINCREMENT id and the current timestamp
`now` — and redirect; on a `ValueError` render the form error of line 74
with the store untouched; on a `KeyError` return a 400 response, store
untouched. -/
def index_post (st : Store) (now : Nat) (f : Form) : Store × PostOutcome :=
  match form_data f with
  | .ok (name, role, basic, housing, transport, feeding) =>
      ({ rows := st.rows ++
           [{ id := st.nextId, name := name, role := role, basic := basic,
              housing := housing, transport := transport, feeding := feeding,
              created_at := now }],
         nextId := st.nextId + 1 }, .redirect)
  | .error .valueError => (st, .formError "Salary fields must be valid numbers.")
  | .error .keyError => (st, .badRequest)

/-- A submission on which the `data` literal succeeds: every field present
and every monetary field parses as a float.  (Nothing checks emptiness of
the text fields or the sign of the amounts.) -/
def Form.parses (f : Form) : Bool :=
  f.name.isSome && f.role.isSome &&
  (f.basic.bind parseFloat).isSome && (f.housing.bind parseFloat).isSome &&
  (f.transport.bind parseFloat).isSome && (f.feeding.bind parseFloat).isSome

/-- Python `round` to the nearest integer, ties to even. -/
def roundHalfEven (q : ℚ) : ℤ :=
  let f : ℤ := ⌊q⌋
  let r : ℚ := q - f
  if r < 1 / 2 then f
  else if 1 / 2 < r then f + 1
  else if f % 2 = 0 then f else f + 1

/-- Python `round(x, 2)`. -/
def round2 (q : ℚ) : ℚ := (roundHalfEven (q * 100) : ℚ) / 100

/-- Line 77: `avg_gross = round(df["gross"].mean(), 2) if not df.empty else 0`. -/
def avg_gross (df : List PayrollLine) : ℚ :=
  if df = [] then 0 else round2 ((df.map PayrollLine.gross).sum / df.length)

/-- Line 78: `above_30k = int((df["net"] > 30000).sum()) if not df.empty else 0`. -/
def above_30k (df : List PayrollLine) : Nat :=
  if df = [] then 0 else (df.filter fun r => decide (30000 < r.net)).length

/-- Result of the `/export` route: either an error response returned before
any file is written, or the spreadsheet written by `df.to_excel` (one sheet
row per DataFrame row) sent as an attachment. -/
inductive ExportResult where
  | clientError (body : String) (status : Nat)
  | file (rows : List PayrollLine)
deriving Repr, DecidableEq

/-- Model of `export` (src/run.py lines 88-95).  (`export` is a Lean keyword, hence
the `_route` suffix.) -/
def export_route (st : Store) : ExportResult :=
  let df := compute_payroll st
  if df = [] then .clientError "No data to export" 400 else .file df

/-- A concrete staff record used to instantiate the theorems below. -/
def demoRecord : StaffRecord := ⟨1, "Ada", "Engineer", 20000, 5000, 3000, 2000, 0⟩

/-- A concrete one-row store. -/
def demoStore : Store := ⟨[demoRecord], 2⟩

/-- C1: for every StaffRecord the derived columns satisfy
gross = basic + housing + transport + feeding, tax = gross * 0.10,
pension = gross * 0.08, net = gross - tax - pension; in particular a record
with basic=20000, housing=5000, transport=3000, feeding=2000 yields
gross=30000, tax=3000, pension=2400, net=24600. -/
theorem payroll_formulas (r : StaffRecord) :
    (toLine r).gross = r.basic + r.housing + r.transport + r.feeding ∧
    (toLine r).tax = (toLine r).gross * 0.10 ∧
    (toLine r).pension = (toLine r).gross * 0.08 ∧
    (toLine r).net = (toLine r).gross - (toLine r).tax - (toLine r).pension ∧
    (r.basic = 20000 → r.housing = 5000 → r.transport = 3000 → r.feeding = 2000 →
      (toLine r).gross = 30000 ∧ (toLine r).tax = 3000 ∧
      (toLine r).pension = 2400 ∧ (toLine r).net = 24600) := by
  refine ⟨rfl, rfl, rfl, by simp only [toLine]; ring, ?_⟩
  intro h1 h2 h3 h4
  refine ⟨?_, ?_, ?_, ?_⟩ <;> simp only [toLine, h1, h2, h3, h4] <;> norm_num

/-- Witness for C1 at the concrete record of the claim. -/
theorem payroll_formulas_witness :
    (toLine demoRecord).gross = 30000 ∧ (toLine demoRecord).tax = 3000 ∧
    (toLine demoRecord).pension = 2400 ∧ (toLine demoRecord).net = 24600 :=
  (payroll_formulas demoRecord).2.2.2.2 rfl rfl rfl rfl

/-- C5: on an empty store `compute_payroll` returns the empty frame (not an
error), the reported average gross is 0 and the count of staff with net
above 30000 is 0 (lines 39-40 and 77-78). -/
theorem empty_store_payroll (st : Store) (h : st.rows = []) :
    compute_payroll st = [] ∧ avg_gross (compute_payroll st) = 0 ∧
    above_30k (compute_payroll st) = 0 := by
  simp [compute_payroll, h, avg_gross, above_30k]

/-- Witness for C5 at the freshly initialised store. -/
theorem empty_store_payroll_witness :
    compute_payroll init_db = [] ∧ avg_gross (compute_payroll init_db) = 0 ∧
    above_30k (compute_payroll init_db) = 0 :=
  empty_store_payroll init_db rfl

/-- C6: export on an empty staff set fails with the client error
("No data to export", HTTP 400) and writes no spreadsheet file (lines
90-92; `to_excel` on line 94 is never reached). -/
theorem export_empty_fails (st : Store) (h : st.rows = []) :
    export_route st = ExportResult.clientError "No data to export" 400 := by
  simp [export_route, compute_payroll, h]

/-- Witness for C6 at the freshly initialised store. -/
theorem export_empty_fails_witness :
    export_route init_db = ExportResult.clientError "No data to export" 400 :=
  export_empty_fails init_db rfl

/-- C7: on a non-empty store the export writes exactly the rows of
`compute_payroll` — same derived columns, same order — with one spreadsheet
row per staff record. -/
theorem export_matches_payroll (st : Store) (h : st.rows ≠ []) :
    export_route st = ExportResult.file (compute_payroll st) ∧
    List.Perm (compute_payroll st) (st.rows.map toLine) ∧
    (compute_payroll st).length = st.rows.length := by
  have hne : compute_payroll st ≠ [] := by
    simp only [compute_payroll, if_neg h]
    intro hc
    apply h
    have := congrArg List.length hc
    simpa using this
  refine ⟨?_, ?_, ?_⟩
  · simp only [export_route]
    rw [if_neg hne]
  · simp only [compute_payroll, if_neg h]
    exact List.mergeSort_perm _ _
  · simp only [compute_payroll, if_neg h]
    simp

/-- Witness for C7 at a concrete one-record store. -/
theorem export_matches_payroll_witness :
    export_route demoStore = ExportResult.file (compute_payroll demoStore) ∧
    List.Perm (compute_payroll demoStore) (demoStore.rows.map toLine) ∧
    (compute_payroll demoStore).length = demoStore.rows.length :=
  export_matches_payroll demoStore (by decide)

/-- C8: `compute_payroll` is deterministic and side-effect-free: as a state
transformer it leaves the store unchanged, and running it a second time on
the resulting state returns the identical list. -/
theorem compute_payroll_pure (st : Store) :
    (compute_payroll_op st).1 = st ∧
    (compute_payroll_op (compute_payroll_op st).1).2 = (compute_payroll_op st).2 :=
  ⟨rfl, rfl⟩

/-- Running `bind` on a successful `Except` runs the continuation. -/
theorem except_ok_bind {ε α β : Type} (a : α) (g : α → Except ε β) :
    (Except.ok a >>= g : Except ε β) = g a := rfl

/-- Running `bind` on a failed `Except` propagates the failure. -/
theorem except_error_bind {ε α β : Type} (e : ε) (g : α → Except ε β) :
    (Except.error e >>= g : Except ε β) = Except.error e := rfl

/-- Evaluating `isOk` on a success. -/
theorem isOk_ok {ε α : Type} (a : α) : (Except.ok a : Except ε α).isOk = true := rfl

/-- Evaluating `isOk` on a failure. -/
theorem isOk_error {ε α : Type} (e : ε) : (Except.error e : Except ε α).isOk = false := rfl

/-- A text field raises nothing exactly when the key is present. -/
theorem getText_isOk (v : Option String) : (getText v).isOk = v.isSome := by
  cases v <;> rfl

/-- A monetary field raises nothing exactly when the key is present and the
value parses as a float. -/
theorem getMoney_isOk (v : Option String) :
    (getMoney v).isOk = (v.bind parseFloat).isSome := by
  cases v with
  | none => rfl
  | some s => cases hp : parseFloat s <;> simp [getMoney, hp, isOk_ok, isOk_error]

/-- The `data` literal succeeds exactly on submissions that parse. -/
theorem form_data_isOk (f : Form) : (form_data f).isOk = f.parses := by
  rw [Form.parses, ← getText_isOk f.name, ← getText_isOk f.role,
    ← getMoney_isOk f.basic, ← getMoney_isOk f.housing,
    ← getMoney_isOk f.transport, ← getMoney_isOk f.feeding]
  cases h1 : getText f.name <;> cases h2 : getText f.role <;>
    cases h3 : getMoney f.basic <;> cases h4 : getMoney f.housing <;>
    cases h5 : getMoney f.transport <;> cases h6 : getMoney f.feeding <;>
    simp [form_data, h1, h2, h3, h4, h5, h6, except_ok_bind, except_error_bind,
      isOk_ok, isOk_error]

/-- With every field present, the only possible exception is the
`ValueError` of one of the four `float()` calls. -/
theorem form_data_all_present (f : Form) (n r bs hs ts fs : String)
    (e1 : f.name = some n) (e2 : f.role = some r) (e3 : f.basic = some bs)
    (e4 : f.housing = some hs) (e5 : f.transport = some ts)
    (e6 : f.feeding = some fs) :
    (form_data f).isOk = true ∨ form_data f = Except.error FormError.valueError := by
  cases p1 : parseFloat bs <;> cases p2 : parseFloat hs <;>
    cases p3 : parseFloat ts <;> cases p4 : parseFloat fs <;>
    simp [form_data, getText, getMoney, e1, e2, e3, e4, e5, e6, p1, p2, p3, p4,
      except_ok_bind, except_error_bind, isOk_ok, isOk_error]

/-- Shape of a successful `data` literal: the stripped texts and the parsed
amounts, in field order. -/
theorem form_data_ok (f : Form) (n r bs hs ts fs : String) (qb qh qt qf : ℚ)
    (e1 : f.name = some n) (e2 : f.role = some r) (e3 : f.basic = some bs)
    (e4 : f.housing = some hs) (e5 : f.transport = some ts)
    (e6 : f.feeding = some fs)
    (p1 : parseFloat bs = some qb) (p2 : parseFloat hs = some qh)
    (p3 : parseFloat ts = some qt) (p4 : parseFloat fs = some qf) :
    form_data f = Except.ok (strip n, strip r, qb, qh, qt, qf) := by
  simp [form_data, getText, getMoney, e1, e2, e3, e4, e5, e6, p1, p2, p3, p4,
    except_ok_bind]

/-- Shape of a successful insert. -/
theorem index_post_ok (st : Store) (now : Nat) (f : Form)
    (n r bs hs ts fs : String) (qb qh qt qf : ℚ)
    (e1 : f.name = some n) (e2 : f.role = some r) (e3 : f.basic = some bs)
    (e4 : f.housing = some hs) (e5 : f.transport = some ts)
    (e6 : f.feeding = some fs)
    (p1 : parseFloat bs = some qb) (p2 : parseFloat hs = some qh)
    (p3 : parseFloat ts = some qt) (p4 : parseFloat fs = some qf) :
    index_post st now f =
      ({ rows := st.rows ++
           [{ id := st.nextId, name := strip n, role := strip r, basic := qb,
              housing := qh, transport := qt, feeding := qf, created_at := now }],
         nextId := st.nextId + 1 }, PostOutcome.redirect) := by
  simp only [index_post,
    form_data_ok f n r bs hs ts fs qb qh qt qf e1 e2 e3 e4 e5 e6 p1 p2 p3 p4]

/-- Any failure of the POST branch leaves the store exactly as it was. -/
theorem index_post_error_fst (st : Store) (now : Nat) (f : Form)
    (h : (index_post st now f).2 ≠ PostOutcome.redirect) :
    (index_post st now f).1 = st := by
  cases hfd : form_data f with
  | ok x =>
    exfalso
    apply h
    obtain ⟨a, b, c, d, e0, g⟩ := x
    simp [index_post, hfd]
  | error e => cases e <;> simp [index_post, hfd]

/-- The POST branch redirects exactly when the submission parses. -/
theorem index_post_redirect_iff (st : Store) (now : Nat) (f : Form) :
    ((index_post st now f).2 = PostOutcome.redirect) ↔ f.parses = true := by
  rw [← form_data_isOk]
  cases hfd : form_data f with
  | ok x =>
    obtain ⟨a, b, c, d, e0, g⟩ := x
    simp [index_post, hfd, isOk_ok]
  | error e => cases e <;> simp [index_post, hfd, isOk_error]

/-- All fields present but some amount fails to parse: the caught
`ValueError` path of lines 73-74. -/
theorem index_post_valueError (st : Store) (now : Nat) (f : Form)
    (n r bs hs ts fs : String)
    (e1 : f.name = some n) (e2 : f.role = some r) (e3 : f.basic = some bs)
    (e4 : f.housing = some hs) (e5 : f.transport = some ts)
    (e6 : f.feeding = some fs) (hnp : f.parses = false) :
    index_post st now f =
      (st, PostOutcome.formError "Salary fields must be valid numbers.") := by
  rcases form_data_all_present f n r bs hs ts fs e1 e2 e3 e4 e5 e6 with hok | herr
  · rw [form_data_isOk, hnp] at hok
    simp at hok
  · simp [index_post, herr]

/-- A submission with an empty name and valid numbers. -/
def emptyNameForm : Form :=
  ⟨some "", some "Clerk", some "1000", some "200", some "100", some "50"⟩

/-- A submission whose `basic` field is the non-numeric string "abc". -/
def badMoneyForm : Form :=
  ⟨some "Ada", some "Engineer", some "abc", some "200", some "100", some "50"⟩

/-- A submission whose `basic` field is the negative number "-5". -/
def negativeBasicForm : Form :=
  ⟨some "Bob", some "Clerk", some "-5", some "200", some "100", some "50"⟩

/-- C3 (counterexample): the claim says a submission whose `name` is empty
text, or whose monetary field does not parse as a non-negative number,
fails with `InvalidInputError` and writes no record; `index` checks neither
— a submission with empty name is accepted and appended, and so is one with
the negative amount "-5". -/
theorem addStaff_accepts_empty_name :
    ((index_post init_db 0 emptyNameForm).2 = PostOutcome.redirect ∧
      (index_post init_db 0 emptyNameForm).1.rows.map StaffRecord.name = [""]) ∧
    ((index_post init_db 0 negativeBasicForm).2 = PostOutcome.redirect ∧
      (index_post init_db 0 negativeBasicForm).1.rows.map StaffRecord.basic = [-5]) := by
  decide

/-- C3 (amended): `addStaff` succeeds exactly when every field is present
and the four monetary fields parse as floats — emptiness of name/role and
the sign of the amounts are never checked; when every field is present and
some monetary field does not parse, it fails with the `InvalidInputError`
form error "Salary fields must be valid numbers."; any failure leaves the
store unchanged, so no record is written. -/
theorem addStaff_validation (st : Store) (now : Nat) (f : Form) :
    ((index_post st now f).2 = PostOutcome.redirect ↔ f.parses = true) ∧
    ((index_post st now f).2 ≠ PostOutcome.redirect → (index_post st now f).1 = st) ∧
    (∀ n r bs hs ts fs : String,
      f.name = some n → f.role = some r → f.basic = some bs →
      f.housing = some hs → f.transport = some ts → f.feeding = some fs →
      f.parses = false →
      index_post st now f =
        (st, PostOutcome.formError "Salary fields must be valid numbers.")) :=
  ⟨index_post_redirect_iff st now f, index_post_error_fst st now f,
    fun n r bs hs ts fs e1 e2 e3 e4 e5 e6 hnp =>
      index_post_valueError st now f n r bs hs ts fs e1 e2 e3 e4 e5 e6 hnp⟩

/-- Witness for C3 (amended) on the concrete "abc" submission. -/
theorem addStaff_validation_witness :
    index_post init_db 0 badMoneyForm =
      (init_db, PostOutcome.formError "Salary fields must be valid numbers.") :=
  (addStaff_validation init_db 0 badMoneyForm).2.2 "Ada" "Engineer" "abc" "200" "100" "50"
    rfl rfl rfl rfl rfl rfl (by decide)

/-- C4: a submission with every field present in which some monetary field
is a non-numeric string fails with the `InvalidInputError` form error and
leaves the store — contents and record count — exactly as before the
call. -/
theorem addStaff_atomic_on_bad_number (st : Store) (now : Nat) (f : Form)
    (n r bs hs ts fs : String)
    (e1 : f.name = some n) (e2 : f.role = some r) (e3 : f.basic = some bs)
    (e4 : f.housing = some hs) (e5 : f.transport = some ts)
    (e6 : f.feeding = some fs)
    (hbad : parseFloat bs = none ∨ parseFloat hs = none ∨
      parseFloat ts = none ∨ parseFloat fs = none) :
    index_post st now f =
      (st, PostOutcome.formError "Salary fields must be valid numbers.") := by
  apply index_post_valueError st now f n r bs hs ts fs e1 e2 e3 e4 e5 e6
  rcases hbad with hb | hb | hb | hb <;>
    simp [Form.parses, e3, e4, e5, e6, hb]

/-- Witness for C4: `basic="abc"` on a non-empty store. -/
theorem addStaff_atomic_on_bad_number_witness :
    index_post demoStore 0 badMoneyForm =
      (demoStore, PostOutcome.formError "Salary fields must be valid numbers.") :=
  addStaff_atomic_on_bad_number demoStore 0 badMoneyForm "Ada" "Engineer" "abc" "200"
    "100" "50" rfl rfl rfl rfl rfl rfl (Or.inl (by decide))

/-- A submission whose name carries surrounding whitespace. -/
def paddedNameForm : Form :=
  ⟨some " Ada ", some "Engineer", some "1000", some "200", some "100", some "50"⟩

/-- C9 (counterexample): the claim says the appended record's `name` equals
the submitted input; `index` strips it (line 57), so submitting the name
" Ada " succeeds but stores "Ada", which differs from the input. -/
theorem addStaff_name_differs_from_input :
    (index_post init_db 0 paddedNameForm).2 = PostOutcome.redirect ∧
    (index_post init_db 0 paddedNameForm).1.rows.map StaffRecord.name = ["Ada"] ∧
    (" Ada " : String) ≠ "Ada" := by
  decide

/-- C9 (amended): for every parsing submission and well-formed store,
`addStaff` followed by `listAll` yields exactly one more record: the old
rows plus a new one whose name and role are the submitted text stripped of
surrounding whitespace, whose monetary fields are the parsed amounts, and
whose id is the AUTOINCREMENT counter — unique, strictly greater than every
previously assigned id — with the counter invariant preserved. -/
theorem addStaff_appends_one (st : Store) (now : Nat) (f : Form)
    (hwf : st.WF) (n r bs hs ts fs : String) (qb qh qt qf : ℚ)
    (e1 : f.name = some n) (e2 : f.role = some r) (e3 : f.basic = some bs)
    (e4 : f.housing = some hs) (e5 : f.transport = some ts)
    (e6 : f.feeding = some fs)
    (p1 : parseFloat bs = some qb) (p2 : parseFloat hs = some qh)
    (p3 : parseFloat ts = some qt) (p4 : parseFloat fs = some qf) :
    (index_post st now f).1.rows =
      st.rows ++
        [{ id := st.nextId, name := strip n, role := strip r, basic := qb,
           housing := qh, transport := qt, feeding := qf, created_at := now }] ∧
    (index_post st now f).1.rows.length = st.rows.length + 1 ∧
    (∀ r0 ∈ st.rows, r0.id < st.nextId) ∧
    (index_post st now f).1.WF := by
  have h := index_post_ok st now f n r bs hs ts fs qb qh qt qf e1 e2 e3 e4 e5 e6 p1 p2 p3 p4
  refine ⟨by rw [h], by rw [h]; simp, hwf, ?_⟩
  rw [h]
  intro r0 hr0
  simp only [List.mem_append, List.mem_singleton] at hr0
  rcases hr0 with h1 | h1
  · exact Nat.lt_succ_of_lt (hwf r0 h1)
  · rw [h1]
    exact Nat.lt_succ_self _

/-- The concrete one-record store satisfies the AUTOINCREMENT invariant. -/
theorem demoStore_WF : demoStore.WF := by
  intro r hr
  simp only [demoStore, List.mem_singleton] at hr
  rw [hr]
  decide

/-- Witness for C9 (amended) at a concrete one-record store. -/
theorem addStaff_appends_one_witness :
    (index_post demoStore 0 paddedNameForm).1.rows.length = demoStore.rows.length + 1 ∧
    (index_post demoStore 0 paddedNameForm).1.WF :=
  ⟨(addStaff_appends_one demoStore 0 paddedNameForm demoStore_WF " Ada " "Engineer"
      "1000" "200" "100" "50" 1000 200 100 50 rfl rfl rfl rfl rfl rfl
      (by decide) (by decide) (by decide) (by decide)).2.1,
   (addStaff_appends_one demoStore 0 paddedNameForm demoStore_WF " Ada " "Engineer"
      "1000" "200" "100" "50" 1000 200 100 50 rfl rfl rfl rfl rfl rfl
      (by decide) (by decide) (by decide) (by decide)).2.2.2⟩

/-- C10: the persisted name and role equal the submitted text with leading
and trailing whitespace removed (lines 57-58), while the monetary fields
are stored exactly as parsed, unmodified. -/
theorem addStaff_normalizes_text (st : Store) (now : Nat) (f : Form)
    (n r bs hs ts fs : String) (qb qh qt qf : ℚ)
    (e1 : f.name = some n) (e2 : f.role = some r) (e3 : f.basic = some bs)
    (e4 : f.housing = some hs) (e5 : f.transport = some ts)
    (e6 : f.feeding = some fs)
    (p1 : parseFloat bs = some qb) (p2 : parseFloat hs = some qh)
    (p3 : parseFloat ts = some qt) (p4 : parseFloat fs = some qf) :
    ∃ rec, (index_post st now f).1.rows = st.rows ++ [rec] ∧
      rec.name = strip n ∧ rec.role = strip r ∧ rec.basic = qb ∧
      rec.housing = qh ∧ rec.transport = qt ∧ rec.feeding = qf := by
  have h := index_post_ok st now f n r bs hs ts fs qb qh qt qf e1 e2 e3 e4 e5 e6 p1 p2 p3 p4
  refine
    ⟨{ id := st.nextId, name := strip n, role := strip r, basic := qb,
       housing := qh, transport := qt, feeding := qf, created_at := now },
     by rw [h], rfl, rfl, rfl, rfl, rfl, rfl⟩

/-- Witness for C10 on a padded submission. -/
theorem addStaff_normalizes_text_witness :
    ∃ rec, (index_post init_db 0 paddedNameForm).1.rows = init_db.rows ++ [rec] ∧
      rec.name = strip " Ada " ∧ rec.role = strip "Engineer" ∧ rec.basic = 1000 ∧
      rec.housing = 200 ∧ rec.transport = 100 ∧ rec.feeding = 50 :=
  addStaff_normalizes_text init_db 0 paddedNameForm " Ada " "Engineer" "1000" "200"
    "100" "50" 1000 200 100 50 rfl rfl rfl rfl rfl rfl
    (by decide) (by decide) (by decide) (by decide)
